import Mathlib

set_option maxHeartbeats 1000000

namespace BookSearch

/-! # Shallow embedding of `main.py` (Book Search API)

The embedded program is a proxy over the Google Books API:
`map_volume` normalizes one raw upstream item, `search_books` serves
`/api/search`, and `recommendations` serves `/api/recommendations`.
Upstream HTTP calls are modelled by an explicit outcome value: either
the call raised an exception in `requests.get` (network error /
timeout), or it completed with a status code and a body that may or
may not parse as JSON. -/

/-- JSON-like values as produced by parsing the upstream response body
(Python objects after `resp.json()`): `null` models Python `None`,
`obj` models `dict`, `arr` models `list`.  Numbers are modelled as
rationals, covering both JSON integers and decimals. -/
inductive JValue where
  | null : JValue
  | bool (b : Bool) : JValue
  | num (x : Rat) : JValue
  | str (s : String) : JValue
  | arr (elems : List JValue) : JValue
  | obj (fields : List (String × JValue)) : JValue

/-- A Python dictionary with string keys, as all upstream JSON objects are. -/
abbrev PyDict := List (String × JValue)

/-- Key lookup in a dictionary (keys are assumed distinct, as in Python dicts). -/
def lookupKey : PyDict → String → Option JValue
  | [], _ => none
  | (k, v) :: rest, key => if k = key then some v else lookupKey rest key

/-- Python `d.get(key, default)`: the stored value when the key is present
(even when that value is `None`), the default otherwise. -/
def getD (kvs : PyDict) (key : String) (dflt : JValue) : JValue :=
  match lookupKey kvs key with
  | some v => v
  | none => dflt

/-- Python `d.get(key)`: `None` when the key is absent. -/
def get (kvs : PyDict) (key : String) : JValue :=
  getD kvs key .null

/-- Python truthiness of a value (`bool(v)`): `None`, `False`, `0`, `""`,
`[]` and `{}` are falsy, everything else truthy. -/
def truthy : JValue → Bool
  | .null => false
  | .bool b => b
  | .num x => x ≠ 0
  | .str s => s ≠ ""
  | .arr elems => !elems.isEmpty
  | .obj fields => !fields.isEmpty

/-- Python `a or b`: `a` when `a` is truthy, otherwise `b`. -/
def pyOr (a b : JValue) : JValue :=
  if truthy a then a else b

/-- The message of the `AttributeError` raised when `.get` is called on a
non-dict value (Python's actual text names the concrete type; the claims
only depend on the message being a fixed non-empty description). -/
def attributeErrorMsg : String :=
  "AttributeError: object has no attribute get"

/-- The message of the `TypeError` raised when iterating a non-iterable. -/
def typeErrorMsg : String :=
  "TypeError: object is not iterable"

/-- `map_volume(item)` from `main.py`.  The Python function is duck-typed:
`item.get` / `volume.get` / `image_links.get` raise `AttributeError` when
the receiver is not a dict, which the embedding returns as `.error`.
On a dict input it builds the 14-field normalized dict literal, with
`volumeInfo` and `imageLinks` defaulting to empty dicts when absent,
`authors`/`categories` defaulting to `[]` when absent, and the Python
`or` fallbacks for `thumbnail` and `infoLink`. -/
def map_volume (item : JValue) : Except String PyDict :=
  match item with
  | .obj ikvs =>
    match getD ikvs "volumeInfo" (.obj []) with
    | .obj volume =>
      match getD volume "imageLinks" (.obj []) with
      | .obj image_links =>
        .ok [("id", get ikvs "id"),
             ("title", get volume "title"),
             ("authors", getD volume "authors" (.arr [])),
             ("thumbnail", pyOr (get image_links "thumbnail") (get image_links "smallThumbnail")),
             ("publishedDate", get volume "publishedDate"),
             ("description", get volume "description"),
             ("pageCount", get volume "pageCount"),
             ("categories", getD volume "categories" (.arr [])),
             ("language", get volume "language"),
             ("infoLink", pyOr (get volume "infoLink") (get volume "canonicalVolumeLink")),
             ("previewLink", get volume "previewLink"),
             ("publisher", get volume "publisher"),
             ("rating", get volume "averageRating"),
             ("ratingsCount", get volume "ratingsCount")]
      | _ => .error attributeErrorMsg
    | _ => .error attributeErrorMsg
  | _ => .error attributeErrorMsg

/-- The 14 keys of the normalized record, in the order of the dict literal. -/
def normalizedKeys : List String :=
  ["id", "title", "authors", "thumbnail", "publishedDate", "description",
   "pageCount", "categories", "language", "infoLink", "previewLink",
   "publisher", "rating", "ratingsCount"]

/-- The normalized record produced when `volumeInfo` is missing: only the
top-level `id` survives, every other scalar field is `None` and the two
sequence fields are empty lists. -/
def blankBook (idv : JValue) : PyDict :=
  [("id", idv), ("title", .null), ("authors", .arr []), ("thumbnail", .null),
   ("publishedDate", .null), ("description", .null), ("pageCount", .null),
   ("categories", .arr []), ("language", .null), ("infoLink", .null),
   ("previewLink", .null), ("publisher", .null), ("rating", .null),
   ("ratingsCount", .null)]

/-- Python iteration `for it in v`: lists yield their elements, strings
yield their characters (as one-character strings), dicts yield their
keys; every other value raises `TypeError`. -/
def pyIterate : JValue → Except String (List JValue)
  | .arr elems => .ok elems
  | .str s => .ok (s.toList.map (fun c => .str (String.singleton c)))
  | .obj fields => .ok (fields.map (fun kv => .str kv.1))
  | _ => .error typeErrorMsg

/-- The list comprehension `[map_volume(it) for it in items]`: evaluated
left to right, the first exception aborts the whole comprehension. -/
def mapVolumes : List JValue → Except String (List PyDict)
  | [] => .ok []
  | it :: rest =>
    match map_volume it with
    | .error e => .error e
    | .ok b =>
      match mapVolumes rest with
      | .error e => .error e
      | .ok bs => .ok (b :: bs)

/-- `[map_volume(it) for it in items]` applied to the raw `items` value
(which need not be a list: Python iterates whatever it is, or raises). -/
def normalizeItems (v : JValue) : Except String (List PyDict) :=
  match pyIterate v with
  | .error e => .error e
  | .ok xs => mapVolumes xs

/-- A completed HTTP response as seen by the handler: its status code,
reason phrase and final URL (used by `raise_for_status` to build the
`HTTPError` message), and its body — `none` when `resp.json()` raises,
carrying `jsonErr` as the decoder's error message. -/
structure HTTPResponse where
  status : Nat
  reason : String
  url : String
  body : Option JValue
  jsonErr : String

/-- Outcome of one `requests.get` call: either the call itself raised
(connection error, timeout, too many redirects, ...) with message `msg`,
or a response came back. -/
inductive UpstreamOutcome where
  | raised (msg : String) : UpstreamOutcome
  | ok (resp : HTTPResponse) : UpstreamOutcome

/-- The message of the `HTTPError` raised by `resp.raise_for_status()`:
requests formats `"<status> Client Error: <reason> for url: <url>"` for
4xx and `"<status> Server Error: ..."` for 5xx. -/
def raiseForStatusMsg (status : Nat) (reason url : String) : String :=
  if status < 500 then
    Nat.repr status ++ " Client Error: " ++ reason ++ " for url: " ++ url
  else
    Nat.repr status ++ " Server Error: " ++ reason ++ " for url: " ++ url

/-- `resp.raise_for_status()` raises exactly for status codes 400–599. -/
def raisesForStatus (status : Nat) : Bool :=
  decide (400 ≤ status) && decide (status < 600)

/-- The value returned by `search_books`: the Python success dict has no
`"error"` key, modelled by `error = none`; the failure dict carries the
exception's string.  `total` is whatever JSON value upstream put under
`totalItems` (the integer `0` in the failure branch). -/
structure SearchResult where
  total : JValue
  items : List PyDict
  query : String
  error : Option String

/-- The failure branch `{"total": 0, "items": [], "query": q, "error": str(e)}`. -/
def degradedResult (q msg : String) : SearchResult :=
  { total := .num 0, items := [], query := q, error := some msg }

/-- The body of `search_books` from `main.py`, after parameter validation:
one upstream GET, `raise_for_status`, `resp.json()`, then the success
dict; any exception in the `try` block is caught and turned into the
degraded result carrying `str(e)`. -/
def search_books (q : String) (o : UpstreamOutcome) : SearchResult :=
  match o with
  | .raised msg => degradedResult q msg
  | .ok resp =>
    if raisesForStatus resp.status then
      degradedResult q (raiseForStatusMsg resp.status resp.reason resp.url)
    else
      match resp.body with
      | none => degradedResult q resp.jsonErr
      | some data =>
        match data with
        | .obj dkvs =>
          match normalizeItems (getD dkvs "items" (.arr [])) with
          | .ok its =>
            { total := getD dkvs "totalItems" (.num 0), items := its,
              query := q, error := none }
          | .error msg => degradedResult q msg
        | _ => degradedResult q attributeErrorMsg

/-- The query parameters of one outbound call issued by the search route. -/
structure SearchRequest where
  q : String
  startIndex : Int
  maxResults : Int

/-- FastAPI's parameter validation for the search route, as declared in
`main.py`: `startIndex: int = Query(0, ge=0)` and
`maxResults: int = Query(20, ge=1, le=40)`.  Returns the name of an
offending parameter, or `none` when both are in bounds. -/
def validateSearchParams (startIndex maxResults : Int) : Option String :=
  if startIndex < 0 then some "startIndex"
  else if maxResults < 1 then some "maxResults"
  else if 40 < maxResults then some "maxResults"
  else none

/-- The full `/api/search` route: FastAPI rejects out-of-bounds
parameters with a validation error before the handler body runs, so no
outbound request is issued in that case.  The second component is the
list of outbound requests actually issued (exactly one on the accepted
path, none on rejection). -/
def search_endpoint (upstream : SearchRequest → UpstreamOutcome)
    (q : String) (startIndex maxResults : Int) :
    Except String SearchResult × List SearchRequest :=
  match validateSearchParams startIndex maxResults with
  | some p => (.error ("InvalidInput: " ++ p), [])
  | none =>
    (.ok (search_books q (upstream ⟨q, startIndex, maxResults⟩)),
     [⟨q, startIndex, maxResults⟩])

/-- The fixed curated list of `(title, q)` pairs from `recommendations`. -/
def suggestion_sets : List (String × String) :=
  [("Trending Fiction", "subject:fiction bestsellers"),
   ("Personal Growth", "subject:self-help"),
   ("Tech & Programming", "subject:programming OR subject:technology"),
   ("Business & Strategy", "subject:business strategy"),
   ("Sci‑Fi Classics", "subject:science fiction classics"),
   ("For Kids", "subject:children")]

/-- One element of the `sections` list: the dict
`{"title": ..., "q": ..., "items": ...}` appended by `recommendations`. -/
structure RecSection where
  title : String
  q : String
  items : List PyDict

/-- What one loop iteration of `recommendations` appends for a topic,
given the outcome of its upstream call — or `none` when nothing is
appended.  An exception anywhere in the `try` block (the GET itself,
`r.json()`, `payload.get` on a non-dict, or the comprehension) is caught
and appends the section with empty items; a completed response with
status 200 and a well-formed body appends the normalized items; a
completed response with any other status falls through both branches and
appends nothing. -/
def sectionItems (o : UpstreamOutcome) : Option (List PyDict) :=
  match o with
  | .raised _ => some []
  | .ok resp =>
    if resp.status = 200 then
      some (match resp.body with
        | none => []
        | some payload =>
          match payload with
          | .obj pkvs =>
            match normalizeItems (getD pkvs "items" (.arr [])) with
            | .ok its => its
            | .error _ => []
          | _ => [])
    else
      none

/-- The section appended for one curated pair, when one is appended. -/
def sectionFor (upstream : String → UpstreamOutcome) (s : String × String) :
    Option RecSection :=
  (sectionItems (upstream s.2)).map (fun its => ⟨s.1, s.2, its⟩)

/-- The `sections` list returned by `recommendations()` (the route wraps
it as `{"sections": ...}`), as a function of the per-query upstream
outcome.  Each curated pair is processed in order and contributes its
section when its loop iteration appends one. -/
def recommendations (upstream : String → UpstreamOutcome) : List RecSection :=
  suggestion_sets.filterMap (sectionFor upstream)

/-- The `(title, q)` identity of a section. -/
def projTQ (s : RecSection) : String × String := (s.title, s.q)

/-- Whether a value is a JSON sequence (a Python list). -/
def isSeq : JValue → Bool
  | .arr _ => true
  | _ => false

/-- The upstream endpoint constant from `main.py`. -/
def GOOGLE_BOOKS_API : String := "https://www.googleapis.com/books/v1/volumes"

/-- The failure description produced by `search_books` for a given
upstream outcome, mirroring which expression of the `try` block raises:
`none` means no exception is raised and the success dict is returned.
Exception messages produced inside Python libraries are carried by the
outcome (`msg` for `requests.get`, `jsonErr` for `resp.json()`); the
duck-typing failures carry the fixed `AttributeError`/`TypeError`
messages. -/
def failureDescription (o : UpstreamOutcome) : Option String :=
  match o with
  | .raised msg => some msg
  | .ok resp =>
    if raisesForStatus resp.status then
      some (raiseForStatusMsg resp.status resp.reason resp.url)
    else
      match resp.body with
      | none => some resp.jsonErr
      | some (.obj dkvs) =>
        match normalizeItems (getD dkvs "items" (.arr [])) with
        | .ok _ => none
        | .error msg => some msg
      | some _ => some attributeErrorMsg

/-- Modelling assumption about upstream exception strings: the messages
that `requests` and the JSON decoder attach to their exceptions are
never empty (`str(e)` of a `requests` exception always carries a
description, and `JSONDecodeError` messages always carry position
information). -/
def wellFormedMessages : UpstreamOutcome → Prop
  | .raised msg => msg ≠ ""
  | .ok resp => resp.jsonErr ≠ ""

/-! ## Concrete inputs used by counterexamples and witnesses -/

/-- A raw item whose `volumeInfo.authors` is present with value `null`. -/
def c4item : JValue := .obj [("volumeInfo", .obj [("authors", JValue.null)])]

/-- What `map_volume` returns on `c4item`: `authors` is `null`, not a list. -/
def c4out : PyDict :=
  [("id", .null), ("title", .null), ("authors", .null), ("thumbnail", .null),
   ("publishedDate", .null), ("description", .null), ("pageCount", .null),
   ("categories", .arr []), ("language", .null), ("infoLink", .null),
   ("previewLink", .null), ("publisher", .null), ("rating", .null),
   ("ratingsCount", .null)]

/-- The image links dict with a present-but-empty `thumbnail`. -/
def c5imageLinks : PyDict :=
  [("thumbnail", .str ""), ("smallThumbnail", .str "small.jpg")]

/-- A raw item whose `imageLinks.thumbnail` is present but the empty string. -/
def c5item : JValue :=
  .obj [("volumeInfo", .obj [("imageLinks", .obj c5imageLinks)])]

/-- What `map_volume` returns on `c5item`. -/
def c5out : PyDict :=
  [("id", .null), ("title", .null), ("authors", .arr []),
   ("thumbnail", .str "small.jpg"),
   ("publishedDate", .null), ("description", .null), ("pageCount", .null),
   ("categories", .arr []), ("language", .null), ("infoLink", .null),
   ("previewLink", .null), ("publisher", .null), ("rating", .null),
   ("ratingsCount", .null)]

/-- The volume dict with a present-but-empty `infoLink`. -/
def c6volume : PyDict :=
  [("infoLink", .str ""), ("canonicalVolumeLink", .str "https://books.example/canonical")]

/-- A raw item whose `volumeInfo.infoLink` is present but the empty string. -/
def c6item : JValue := .obj [("volumeInfo", .obj c6volume)]

/-- What `map_volume` returns on `c6item`. -/
def c6out : PyDict :=
  [("id", .null), ("title", .null), ("authors", .arr []), ("thumbnail", .null),
   ("publishedDate", .null), ("description", .null), ("pageCount", .null),
   ("categories", .arr []), ("language", .null),
   ("infoLink", .str "https://books.example/canonical"),
   ("previewLink", .null), ("publisher", .null), ("rating", .null),
   ("ratingsCount", .null)]

/-- A raw item carrying a title, used to test idempotence. -/
def c9item : JValue := .obj [("volumeInfo", .obj [("title", .str "T")])]

/-- What `map_volume` returns on `c9item`. -/
def c9onceOut : PyDict :=
  [("id", .null), ("title", .str "T"), ("authors", .arr []), ("thumbnail", .null),
   ("publishedDate", .null), ("description", .null), ("pageCount", .null),
   ("categories", .arr []), ("language", .null), ("infoLink", .null),
   ("previewLink", .null), ("publisher", .null), ("rating", .null),
   ("ratingsCount", .null)]

/-- One application of the normalizer to `c9item`. -/
def c9once : Except String PyDict := map_volume c9item

/-- Two applications of the normalizer to `c9item`. -/
def c9twice : Except String PyDict :=
  c9once.bind (fun out => map_volume (.obj out))

/-- A completed 301 response with a parseable JSON object body. -/
def c2resp : HTTPResponse :=
  ⟨301, "Moved Permanently", GOOGLE_BOOKS_API,
   some (.obj [("totalItems", .num 7)]), "json decode error"⟩

/-- Witness body for the C3 theorem. -/
def c3w_body : PyDict := [("totalItems", .num 3), ("items", .arr [.obj []])]

/-- Witness response for the C3 theorem. -/
def c3w_resp : HTTPResponse :=
  ⟨200, "OK", GOOGLE_BOOKS_API, some (.obj c3w_body), "json decode error"⟩

/-- Witness upstream for the C8 theorem. -/
def c8w_upstream : SearchRequest → UpstreamOutcome := fun _ => .raised "timeout"

/-- An upstream assignment where the first curated topic completes with
HTTP 500 (no exception) and every other topic completes with HTTP 200
and an empty object body. -/
def c1upstream : String → UpstreamOutcome := fun q =>
  if q = "subject:fiction bestsellers" then
    .ok ⟨500, "Internal Server Error", GOOGLE_BOOKS_API, some (.obj []), "jerr"⟩
  else
    .ok ⟨200, "OK", GOOGLE_BOOKS_API, some (.obj []), "jerr"⟩

/-- An upstream assignment where every call raises a timeout. -/
def c1w_upstream : String → UpstreamOutcome := fun _ => .raised "timed out"

/-- An upstream assignment where every call completes with HTTP 500. -/
def c10w_upstream : String → UpstreamOutcome :=
  fun _ => .ok ⟨500, "Internal Server Error", GOOGLE_BOOKS_API, some (.obj []), "jerr"⟩

/-- Witness volume for the C4 theorem: `authors` present as a list. -/
def c4w_volume : PyDict := [("authors", .arr [.str "Ann"])]

/-- Witness item for the C4 theorem. -/
def c4w_item : PyDict := [("volumeInfo", .obj c4w_volume)]

/-- What `map_volume` returns on `c4w_item`. -/
def c4w_out : PyDict :=
  [("id", .null), ("title", .null), ("authors", .arr [.str "Ann"]),
   ("thumbnail", .null), ("publishedDate", .null), ("description", .null),
   ("pageCount", .null), ("categories", .arr []), ("language", .null),
   ("infoLink", .null), ("previewLink", .null), ("publisher", .null),
   ("rating", .null), ("ratingsCount", .null)]

/-- Witness image links for the C5 theorem: only a full-size thumbnail. -/
def c5w_ilinks : PyDict := [("thumbnail", .str "t.jpg")]

/-- Witness volume for the C5 theorem. -/
def c5w_volume : PyDict := [("imageLinks", .obj c5w_ilinks)]

/-- Witness item for the C5 theorem. -/
def c5w_item : PyDict := [("volumeInfo", .obj c5w_volume)]

/-- What `map_volume` returns on `c5w_item`. -/
def c5w_out : PyDict :=
  [("id", .null), ("title", .null), ("authors", .arr []),
   ("thumbnail", .str "t.jpg"), ("publishedDate", .null),
   ("description", .null), ("pageCount", .null), ("categories", .arr []),
   ("language", .null), ("infoLink", .null), ("previewLink", .null),
   ("publisher", .null), ("rating", .null), ("ratingsCount", .null)]

/-- Witness volume for the C6 theorem: both links present and non-empty. -/
def c6w_volume : PyDict :=
  [("infoLink", .str "https://books.example/info"),
   ("canonicalVolumeLink", .str "https://books.example/canonical")]

/-- Witness item for the C6 theorem. -/
def c6w_item : PyDict := [("volumeInfo", .obj c6w_volume)]

/-- What `map_volume` returns on `c6w_item`. -/
def c6w_out : PyDict :=
  [("id", .null), ("title", .null), ("authors", .arr []), ("thumbnail", .null),
   ("publishedDate", .null), ("description", .null), ("pageCount", .null),
   ("categories", .arr []), ("language", .null),
   ("infoLink", .str "https://books.example/info"),
   ("previewLink", .null), ("publisher", .null), ("rating", .null),
   ("ratingsCount", .null)]

/-! ## Helper lemmas -/

lemma lookupKey_eq_none_iff (kvs : PyDict) (k : String) :
    lookupKey kvs k = none ↔ k ∉ kvs.map Prod.fst := by
  induction kvs with
  | nil => simp [lookupKey]
  | cons kv rest ih =>
    obtain ⟨k1, v1⟩ := kv
    by_cases h : k1 = k
    · subst h
      simp [lookupKey]
    · simp [lookupKey, if_neg h, ih, Ne.symm h]

lemma map_volume_error_msg {item : JValue} {e : String}
    (h : map_volume item = Except.error e) : e = attributeErrorMsg := by
  unfold map_volume at h
  repeat' split at h
  all_goals simp at h
  all_goals exact h.symm

lemma map_volume_eq_of {ikvs volume image_links : PyDict}
    (hvi : getD ikvs "volumeInfo" (.obj []) = .obj volume)
    (hil : getD volume "imageLinks" (.obj []) = .obj image_links) :
    map_volume (.obj ikvs) =
      Except.ok
        [("id", get ikvs "id"), ("title", get volume "title"),
         ("authors", getD volume "authors" (.arr [])),
         ("thumbnail", pyOr (get image_links "thumbnail") (get image_links "smallThumbnail")),
         ("publishedDate", get volume "publishedDate"),
         ("description", get volume "description"),
         ("pageCount", get volume "pageCount"),
         ("categories", getD volume "categories" (.arr [])),
         ("language", get volume "language"),
         ("infoLink", pyOr (get volume "infoLink") (get volume "canonicalVolumeLink")),
         ("previewLink", get volume "previewLink"),
         ("publisher", get volume "publisher"),
         ("rating", get volume "averageRating"),
         ("ratingsCount", get volume "ratingsCount")] := by
  simp only [map_volume, hvi, hil]

lemma map_volume_ok_inv {ikvs out : PyDict} {volume image_links : PyDict}
    (hvi : getD ikvs "volumeInfo" (.obj []) = .obj volume)
    (hil : getD volume "imageLinks" (.obj []) = .obj image_links)
    (h : map_volume (.obj ikvs) = Except.ok out) :
    out = [("id", get ikvs "id"), ("title", get volume "title"),
           ("authors", getD volume "authors" (.arr [])),
           ("thumbnail", pyOr (get image_links "thumbnail") (get image_links "smallThumbnail")),
           ("publishedDate", get volume "publishedDate"),
           ("description", get volume "description"),
           ("pageCount", get volume "pageCount"),
           ("categories", getD volume "categories" (.arr [])),
           ("language", get volume "language"),
           ("infoLink", pyOr (get volume "infoLink") (get volume "canonicalVolumeLink")),
           ("previewLink", get volume "previewLink"),
           ("publisher", get volume "publisher"),
           ("rating", get volume "averageRating"),
           ("ratingsCount", get volume "ratingsCount")] := by
  rw [map_volume_eq_of hvi hil] at h
  exact (Except.ok.inj h).symm

lemma map_volume_ok_keys {item : JValue} {out : PyDict}
    (h : map_volume item = Except.ok out) :
    out.map Prod.fst = normalizedKeys := by
  unfold map_volume at h
  repeat' split at h
  all_goals simp at h
  all_goals (subst h; rfl)

lemma map_volume_of_no_volumeInfo {ikvs : PyDict}
    (h : lookupKey ikvs "volumeInfo" = none) :
    map_volume (.obj ikvs) = Except.ok (blankBook (get ikvs "id")) := by
  have hvi : getD ikvs "volumeInfo" (.obj []) = .obj [] := by
    simp [getD, h]
  rw [map_volume_eq_of hvi rfl]
  rfl

lemma pyIterate_error_msg {v : JValue} {m : String}
    (h : pyIterate v = Except.error m) : m = typeErrorMsg := by
  cases v <;> simp [pyIterate] at h
  all_goals exact h.symm

lemma mapVolumes_error_msg {xs : List JValue} {e : String}
    (h : mapVolumes xs = Except.error e) : e = attributeErrorMsg := by
  induction xs with
  | nil => simp [mapVolumes] at h
  | cons it rest ih =>
    unfold mapVolumes at h
    cases hmv : map_volume it with
    | error m =>
      simp only [hmv, Except.error.injEq] at h
      subst h
      exact map_volume_error_msg hmv
    | ok b =>
      simp only [hmv] at h
      cases hrec : mapVolumes rest with
      | error e2 =>
        simp only [hrec, Except.error.injEq] at h
        subst h
        exact ih hrec
      | ok bs => simp [hrec] at h

lemma normalizeItems_error_msg {v : JValue} {e : String}
    (h : normalizeItems v = Except.error e) :
    e = attributeErrorMsg ∨ e = typeErrorMsg := by
  unfold normalizeItems at h
  cases hpi : pyIterate v with
  | error m =>
    simp only [hpi, Except.error.injEq] at h
    subst h
    exact Or.inr (pyIterate_error_msg hpi)
  | ok xs =>
    simp only [hpi] at h
    exact Or.inl (mapVolumes_error_msg h)

lemma raiseForStatusMsg_ne_empty (s : Nat) (r u : String) :
    raiseForStatusMsg s r u ≠ "" := by
  have hc : (" Client Error: " : String).length = 15 := rfl
  have hsv : (" Server Error: " : String).length = 15 := rfl
  have hfu : (" for url: " : String).length = 10 := rfl
  have h0 : ("" : String).length = 0 := rfl
  unfold raiseForStatusMsg
  split
  · intro hcontra
    have hl := congrArg String.length hcontra
    rw [String.length_append, String.length_append, String.length_append,
        String.length_append, hc, hfu, h0] at hl
    omega
  · intro hcontra
    have hl := congrArg String.length hcontra
    rw [String.length_append, String.length_append, String.length_append,
        String.length_append, hsv, hfu, h0] at hl
    omega

lemma sectionFor_some_inv {up : String → UpstreamOutcome} {p : String × String}
    {sec : RecSection} (h : sectionFor up p = some sec) :
    sec.title = p.1 ∧ sec.q = p.2 ∧ sectionItems (up p.2) = some sec.items := by
  unfold sectionFor at h
  cases hsi : sectionItems (up p.2) with
  | none => rw [hsi] at h; simp at h
  | some its =>
    rw [hsi] at h
    have h2 : (⟨p.1, p.2, its⟩ : RecSection) = sec := Option.some.inj h
    subst h2
    exact ⟨rfl, rfl, rfl⟩

lemma sectionFor_proj {up : String → UpstreamOutcome} {p : String × String}
    {sec : RecSection} (h : sectionFor up p = some sec) : projTQ sec = p := by
  obtain ⟨h1, h2, h3⟩ := sectionFor_some_inv h
  unfold projTQ
  rw [h1, h2]

lemma sectionItems_eq_none_iff (o : UpstreamOutcome) :
    sectionItems o = none ↔ ∃ resp, o = .ok resp ∧ resp.status ≠ 200 := by
  cases o with
  | raised m => simp [sectionItems]
  | ok resp =>
    by_cases h : resp.status = 200
    · simp [sectionItems, h]
    · simp [sectionItems, h]

lemma map_filterMap_sublist {α β : Type} (f : α → Option β) (proj : β → α)
    (hf : ∀ a b, f a = some b → proj b = a) (l : List α) :
    ((l.filterMap f).map proj).Sublist l := by
  induction l with
  | nil => simp
  | cons a l ih =>
    cases hfa : f a with
    | none =>
      rw [List.filterMap_cons_none hfa]
      exact List.Sublist.cons a ih
    | some b =>
      rw [List.filterMap_cons_some hfa, List.map_cons, hf a b hfa]
      exact List.Sublist.cons₂ a ih

lemma mem_map_filterMap_iff {α β : Type} (f : α → Option β) (proj : β → α)
    (hf : ∀ a b, f a = some b → proj b = a) (l : List α) (a : α) :
    a ∈ (l.filterMap f).map proj ↔ (a ∈ l ∧ f a ≠ none) := by
  constructor
  · intro h
    obtain ⟨b, hb, hproj⟩ := List.mem_map.mp h
    obtain ⟨a2, ha2, hfa2⟩ := List.mem_filterMap.mp hb
    subst hproj
    rw [hf a2 b hfa2]
    exact ⟨ha2, by simp [hfa2]⟩
  · rintro ⟨hal, hfa⟩
    cases hfb : f a with
    | none => exact absurd hfb hfa
    | some b =>
      exact List.mem_map.mpr ⟨b, List.mem_filterMap.mpr ⟨a, hal, hfb⟩, hf a b hfb⟩

lemma map_filterMap_eq_self {α β : Type} (f : α → Option β) (proj : β → α)
    (hf : ∀ a b, f a = some b → proj b = a) :
    ∀ l : List α, (∀ a ∈ l, f a ≠ none) → (l.filterMap f).map proj = l := by
  intro l
  induction l with
  | nil => intro _; simp
  | cons a l ih =>
    intro hall
    cases hfa : f a with
    | none => exact absurd hfa (hall a (by simp))
    | some b =>
      rw [List.filterMap_cons_some hfa, List.map_cons, hf a b hfa,
          ih (fun x hx => hall x (by simp [hx]))]

/-! ## Claims about the Volume Normalizer -/

/-- Claim C7: for every raw item record in which the `volumeInfo` key is
entirely absent, `map_volume` succeeds without raising and returns the
record whose scalar fields are all absent (null), whose `authors` and
`categories` equal the empty sequence, and whose `id` is still passed
through from the top-level item. -/
theorem mapVolume_missing_volumeInfo_blank (ikvs : PyDict)
    (h : lookupKey ikvs "volumeInfo" = none) :
    map_volume (.obj ikvs) = Except.ok (blankBook (get ikvs "id")) :=
  map_volume_of_no_volumeInfo h

theorem mapVolume_missing_volumeInfo_blank_witness :
    lookupKey [("id", JValue.str "vol1")] "volumeInfo" = none ∧
    map_volume (.obj [("id", JValue.str "vol1")]) =
      Except.ok (blankBook (get [("id", JValue.str "vol1")] "id")) :=
  ⟨rfl, mapVolume_missing_volumeInfo_blank _ rfl⟩

/-- Claim C4 (amended): whenever `map_volume` succeeds on a raw record, its
output has exactly the 14 declared keys, in the order of the dict literal
(so every field is present, possibly with a null value); `authors` and
`categories` default to the empty sequence when the key is absent from
`volumeInfo`, but a present value is passed through verbatim — even when
it is null or otherwise not a sequence. -/
theorem mapVolume_key_totality (ikvs volume out : PyDict)
    (hvi : getD ikvs "volumeInfo" (.obj []) = .obj volume)
    (h : map_volume (.obj ikvs) = Except.ok out) :
    out.map Prod.fst = normalizedKeys ∧
    (lookupKey volume "authors" = none → lookupKey out "authors" = some (.arr [])) ∧
    (∀ a, lookupKey volume "authors" = some a → lookupKey out "authors" = some a) ∧
    (lookupKey volume "categories" = none → lookupKey out "categories" = some (.arr [])) ∧
    (∀ c, lookupKey volume "categories" = some c → lookupKey out "categories" = some c) := by
  cases hil : getD volume "imageLinks" (.obj [])
  case obj image_links =>
    have hout := map_volume_ok_inv hvi hil h
    refine ⟨map_volume_ok_keys h, ?_, ?_, ?_, ?_⟩
    · intro hnone
      rw [hout]
      show some (getD volume "authors" (.arr [])) = some (.arr [])
      simp [getD, hnone]
    · intro a ha
      rw [hout]
      show some (getD volume "authors" (.arr [])) = some a
      simp [getD, ha]
    · intro hnone
      rw [hout]
      show some (getD volume "categories" (.arr [])) = some (.arr [])
      simp [getD, hnone]
    · intro c hc
      rw [hout]
      show some (getD volume "categories" (.arr [])) = some c
      simp [getD, hc]
  all_goals simp only [map_volume, hvi, hil] at h
  all_goals simp at h

/-- Claim C4 counterexample: on a raw item whose `volumeInfo.authors` is
present with value null, the normalized `authors` field is null — not a
sequence — because Python's `dict.get(key, default)` only substitutes the
default when the key is absent. -/
theorem mapVolume_authors_null_cex :
    map_volume c4item = Except.ok c4out ∧
    lookupKey c4out "authors" = some JValue.null ∧
    isSeq JValue.null = false :=
  ⟨rfl, rfl, rfl⟩

theorem mapVolume_key_totality_witness :
    (getD c4w_item "volumeInfo" (.obj []) = .obj c4w_volume ∧
     map_volume (.obj c4w_item) = Except.ok c4w_out) ∧
    (c4w_out.map Prod.fst = normalizedKeys ∧
     (lookupKey c4w_volume "authors" = none →
       lookupKey c4w_out "authors" = some (.arr [])) ∧
     (∀ a, lookupKey c4w_volume "authors" = some a →
       lookupKey c4w_out "authors" = some a) ∧
     (lookupKey c4w_volume "categories" = none →
       lookupKey c4w_out "categories" = some (.arr [])) ∧
     (∀ c, lookupKey c4w_volume "categories" = some c →
       lookupKey c4w_out "categories" = some c)) :=
  ⟨⟨rfl, rfl⟩, mapVolume_key_totality c4w_item c4w_volume c4w_out rfl rfl⟩

/-- Claim C5 (amended): the normalized `thumbnail` equals
`imageLinks.thumbnail` exactly when that value is truthy (present and not
null, empty, zero or false); otherwise it equals whatever
`imageLinks.smallThumbnail` holds — the stored value when the key is
present, null (absent) when neither key is present.  In particular, with
a truthy `thumbnail` the output is `thumbnail`; with `thumbnail` absent
and `smallThumbnail` present the output is `smallThumbnail`; with neither
present the output is absent. -/
theorem mapVolume_thumbnail_precedence (ikvs volume image_links out : PyDict)
    (hvi : getD ikvs "volumeInfo" (.obj []) = .obj volume)
    (hil : getD volume "imageLinks" (.obj []) = .obj image_links)
    (h : map_volume (.obj ikvs) = Except.ok out) :
    lookupKey out "thumbnail" =
      some (pyOr (get image_links "thumbnail") (get image_links "smallThumbnail")) ∧
    (∀ tv, lookupKey image_links "thumbnail" = some tv → truthy tv = true →
      lookupKey out "thumbnail" = some tv) ∧
    (lookupKey image_links "thumbnail" = none →
      ∀ sv, lookupKey image_links "smallThumbnail" = some sv →
        lookupKey out "thumbnail" = some sv) ∧
    (lookupKey image_links "thumbnail" = none →
      lookupKey image_links "smallThumbnail" = none →
      lookupKey out "thumbnail" = some JValue.null) := by
  have hout := map_volume_ok_inv hvi hil h
  have hth : lookupKey out "thumbnail" =
      some (pyOr (get image_links "thumbnail") (get image_links "smallThumbnail")) := by
    rw [hout]
    rfl
  refine ⟨hth, ?_, ?_, ?_⟩
  · intro tv htv htr
    rw [hth]
    have hg : get image_links "thumbnail" = tv := by simp [get, getD, htv]
    rw [hg]
    simp [pyOr, htr]
  · intro hnone sv hsv
    rw [hth]
    have hg : get image_links "thumbnail" = JValue.null := by simp [get, getD, hnone]
    have hg2 : get image_links "smallThumbnail" = sv := by simp [get, getD, hsv]
    rw [hg, hg2]
    simp [pyOr, truthy]
  · intro h1 h2
    rw [hth]
    have hg : get image_links "thumbnail" = JValue.null := by simp [get, getD, h1]
    have hg2 : get image_links "smallThumbnail" = JValue.null := by simp [get, getD, h2]
    rw [hg, hg2]
    simp [pyOr, truthy]

/-- Claim C5 counterexample: `imageLinks.thumbnail` is present (the empty
string) yet the normalized `thumbnail` equals `smallThumbnail`, because the
Python `or` falls through on every falsy value, not only on absence. -/
theorem mapVolume_thumbnail_falsy_cex :
    lookupKey c5imageLinks "thumbnail" = some (JValue.str "") ∧
    map_volume c5item = Except.ok c5out ∧
    lookupKey c5out "thumbnail" = some (JValue.str "small.jpg") ∧
    JValue.str "small.jpg" ≠ JValue.str "" := by
  refine ⟨rfl, rfl, rfl, ?_⟩
  intro hcontra
  simp only [JValue.str.injEq] at hcontra
  exact absurd hcontra (by decide)

theorem mapVolume_thumbnail_precedence_witness :
    (getD c5w_item "volumeInfo" (.obj []) = .obj c5w_volume ∧
     getD c5w_volume "imageLinks" (.obj []) = .obj c5w_ilinks ∧
     map_volume (.obj c5w_item) = Except.ok c5w_out) ∧
    (lookupKey c5w_out "thumbnail" =
      some (pyOr (get c5w_ilinks "thumbnail") (get c5w_ilinks "smallThumbnail")) ∧
    (∀ tv, lookupKey c5w_ilinks "thumbnail" = some tv → truthy tv = true →
      lookupKey c5w_out "thumbnail" = some tv) ∧
    (lookupKey c5w_ilinks "thumbnail" = none →
      ∀ sv, lookupKey c5w_ilinks "smallThumbnail" = some sv →
        lookupKey c5w_out "thumbnail" = some sv) ∧
    (lookupKey c5w_ilinks "thumbnail" = none →
      lookupKey c5w_ilinks "smallThumbnail" = none →
      lookupKey c5w_out "thumbnail" = some JValue.null)) :=
  ⟨⟨rfl, rfl, rfl⟩,
   mapVolume_thumbnail_precedence c5w_item c5w_volume c5w_ilinks c5w_out rfl rfl rfl⟩

/-- Claim C6 (amended): the normalized `infoLink` equals
`volumeInfo.infoLink` exactly when that value is truthy; otherwise it
equals whatever `volumeInfo.canonicalVolumeLink` holds, null (absent)
when neither key is present.  In particular, with both present and
`infoLink` truthy, the output equals `infoLink`. -/
theorem mapVolume_infoLink_precedence (ikvs volume image_links out : PyDict)
    (hvi : getD ikvs "volumeInfo" (.obj []) = .obj volume)
    (hil : getD volume "imageLinks" (.obj []) = .obj image_links)
    (h : map_volume (.obj ikvs) = Except.ok out) :
    lookupKey out "infoLink" =
      some (pyOr (get volume "infoLink") (get volume "canonicalVolumeLink")) ∧
    (∀ iv, lookupKey volume "infoLink" = some iv → truthy iv = true →
      lookupKey out "infoLink" = some iv) ∧
    (lookupKey volume "infoLink" = none →
      ∀ cv, lookupKey volume "canonicalVolumeLink" = some cv →
        lookupKey out "infoLink" = some cv) ∧
    (lookupKey volume "infoLink" = none →
      lookupKey volume "canonicalVolumeLink" = none →
      lookupKey out "infoLink" = some JValue.null) := by
  have hout := map_volume_ok_inv hvi hil h
  have hth : lookupKey out "infoLink" =
      some (pyOr (get volume "infoLink") (get volume "canonicalVolumeLink")) := by
    rw [hout]
    rfl
  refine ⟨hth, ?_, ?_, ?_⟩
  · intro iv hiv htr
    rw [hth]
    have hg : get volume "infoLink" = iv := by simp [get, getD, hiv]
    rw [hg]
    simp [pyOr, htr]
  · intro hnone cv hcv
    rw [hth]
    have hg : get volume "infoLink" = JValue.null := by simp [get, getD, hnone]
    have hg2 : get volume "canonicalVolumeLink" = cv := by simp [get, getD, hcv]
    rw [hg, hg2]
    simp [pyOr, truthy]
  · intro h1 h2
    rw [hth]
    have hg : get volume "infoLink" = JValue.null := by simp [get, getD, h1]
    have hg2 : get volume "canonicalVolumeLink" = JValue.null := by simp [get, getD, h2]
    rw [hg, hg2]
    simp [pyOr, truthy]

/-- Claim C6 counterexample: `volumeInfo.infoLink` is present (the empty
string) yet the normalized `infoLink` equals `canonicalVolumeLink`,
because the Python `or` falls through on every falsy value. -/
theorem mapVolume_infoLink_falsy_cex :
    lookupKey c6volume "infoLink" = some (JValue.str "") ∧
    map_volume c6item = Except.ok c6out ∧
    lookupKey c6out "infoLink" = some (JValue.str "https://books.example/canonical") ∧
    JValue.str "https://books.example/canonical" ≠ JValue.str "" := by
  refine ⟨rfl, rfl, rfl, ?_⟩
  intro hcontra
  simp only [JValue.str.injEq] at hcontra
  exact absurd hcontra (by decide)

theorem mapVolume_infoLink_precedence_witness :
    (getD c6w_item "volumeInfo" (.obj []) = .obj c6w_volume ∧
     getD c6w_volume "imageLinks" (.obj []) = .obj [] ∧
     map_volume (.obj c6w_item) = Except.ok c6w_out) ∧
    (lookupKey c6w_out "infoLink" =
      some (pyOr (get c6w_volume "infoLink") (get c6w_volume "canonicalVolumeLink")) ∧
    (∀ iv, lookupKey c6w_volume "infoLink" = some iv → truthy iv = true →
      lookupKey c6w_out "infoLink" = some iv) ∧
    (lookupKey c6w_volume "infoLink" = none →
      ∀ cv, lookupKey c6w_volume "canonicalVolumeLink" = some cv →
        lookupKey c6w_out "infoLink" = some cv) ∧
    (lookupKey c6w_volume "infoLink" = none →
      lookupKey c6w_volume "canonicalVolumeLink" = none →
      lookupKey c6w_out "infoLink" = some JValue.null)) :=
  ⟨⟨rfl, rfl, rfl⟩,
   mapVolume_infoLink_precedence c6w_item c6w_volume [] c6w_out rfl rfl rfl⟩

/-- Claim C9 (amended): normalization is stateless and deterministic — two
calls on bit-identical raw items yield bit-identical outputs — but it is
not idempotent as a self-map: re-normalizing an already-normalized record
keeps only `id` and nulls every `volumeInfo`-derived field, because the
output record has no `volumeInfo` key. -/
theorem mapVolume_deterministic_not_idempotent (a b : JValue) (out : PyDict)
    (hab : a = b) (h : map_volume a = Except.ok out) :
    map_volume a = map_volume b ∧
    map_volume (.obj out) = Except.ok (blankBook (get out "id")) := by
  constructor
  · rw [hab]
  · have hkeys := map_volume_ok_keys h
    have hnone : lookupKey out "volumeInfo" = none := by
      rw [lookupKey_eq_none_iff, hkeys]
      decide
    exact map_volume_of_no_volumeInfo hnone

/-- Claim C9 counterexample: applying `map_volume` twice to a raw item
with a title does not equal applying it once — the second application
loses the title, so normalization is not idempotent. -/
theorem mapVolume_not_idempotent_cex : c9twice ≠ c9once := by
  have h1 : c9once = Except.ok c9onceOut := rfl
  have h2 : c9twice = Except.ok (blankBook JValue.null) := rfl
  rw [h1, h2]
  intro hcontra
  have h3 := Except.ok.inj hcontra
  have h4 : (some JValue.null : Option JValue) = some (JValue.str "T") :=
    congrArg (fun l => lookupKey l "title") h3
  exact JValue.noConfusion (Option.some.inj h4)

theorem mapVolume_deterministic_not_idempotent_witness :
    (JValue.obj [] = JValue.obj [] ∧
     map_volume (JValue.obj []) = Except.ok (blankBook JValue.null)) ∧
    (map_volume (JValue.obj []) = map_volume (JValue.obj []) ∧
     map_volume (.obj (blankBook JValue.null)) =
       Except.ok (blankBook (get (blankBook JValue.null) "id"))) :=
  ⟨⟨rfl, rfl⟩, mapVolume_deterministic_not_idempotent _ _ _ rfl rfl⟩

/-! ## Claims about the search aggregator -/

/-- Claim C3: for every query `q` and every successful upstream response
(no `raise_for_status` exception, body parsing to a JSON object), the
search result has `total` equal to the upstream `totalItems` (the integer
0 when the key is absent), `items` equal to `map_volume` applied
element-wise, in order, to the upstream `items` (the empty sequence when
the key is absent), `query` equal to `q`, and no `error` key. -/
theorem search_books_success_shape (q : String) (resp : HTTPResponse)
    (dkvs : PyDict) (xs : List JValue) (ys : List PyDict)
    (hs : raisesForStatus resp.status = false)
    (hb : resp.body = some (.obj dkvs))
    (hi : getD dkvs "items" (.arr []) = .arr xs)
    (hmap : mapVolumes xs = Except.ok ys) :
    search_books q (.ok resp) =
      { total := getD dkvs "totalItems" (.num 0), items := ys,
        query := q, error := none } := by
  simp [search_books, hs, hb, hi, normalizeItems, pyIterate, hmap]

theorem search_books_success_shape_witness :
    (raisesForStatus c3w_resp.status = false ∧
     c3w_resp.body = some (.obj c3w_body) ∧
     getD c3w_body "items" (.arr []) = .arr [.obj []] ∧
     mapVolumes [.obj []] = Except.ok [blankBook .null]) ∧
    search_books "lean" (.ok c3w_resp) =
      { total := getD c3w_body "totalItems" (.num 0), items := [blankBook .null],
        query := "lean", error := none } :=
  ⟨⟨rfl, rfl, rfl, rfl⟩,
   search_books_success_shape "lean" c3w_resp c3w_body [.obj []] [blankBook .null]
     rfl rfl rfl rfl⟩

/-- Claim C2 (amended): for every query `q`, whenever the upstream call
fails — the GET raises (network error/timeout), the status is 4xx/5xx
(the statuses `raise_for_status` raises for), the body does not parse,
the body is not a JSON object, or its `items` cannot be iterated and
normalized — `search_books` returns exactly
`{total: 0, items: [], query: q, error: e}` with `e` the failure
description, and `e` is non-empty whenever the carried library exception
messages are; no exception propagates (the embedded handler is a total
function).  A completed response with a status outside 400–599 and a
parseable object body is treated as success even when the status is not
2xx. -/
theorem search_books_failure_degrades (q e : String) (o : UpstreamOutcome)
    (hf : failureDescription o = some e) (hwf : wellFormedMessages o) :
    search_books q o = degradedResult q e ∧ e ≠ "" := by
  cases o with
  | raised m =>
    simp only [failureDescription, Option.some.injEq] at hf
    subst hf
    exact ⟨rfl, hwf⟩
  | ok resp =>
    cases hrs : raisesForStatus resp.status with
    | true =>
      simp [failureDescription, hrs] at hf
      subst hf
      refine ⟨?_, raiseForStatusMsg_ne_empty _ _ _⟩
      simp [search_books, hrs]
    | false =>
      cases hb : resp.body with
      | none =>
        simp [failureDescription, hrs, hb] at hf
        subst hf
        exact ⟨by simp [search_books, hrs, hb], hwf⟩
      | some data =>
        cases data
        case obj dkvs =>
          cases hni : normalizeItems (getD dkvs "items" (.arr [])) with
          | ok its => simp [failureDescription, hrs, hb, hni] at hf
          | error m =>
            simp [failureDescription, hrs, hb, hni] at hf
            subst hf
            refine ⟨by simp [search_books, hrs, hb, hni], ?_⟩
            rcases normalizeItems_error_msg hni with h1 | h1 <;> (subst h1; decide)
        all_goals simp [failureDescription, hrs, hb] at hf
        all_goals subst hf
        all_goals exact ⟨by simp [search_books, hrs, hb], by decide⟩

/-- Claim C2 counterexample: a completed 301 response (non-2xx) with a
parseable object body is returned as a success — `error` absent and
`total` taken from the body — because `raise_for_status` only raises for
status codes 400–599. -/
theorem search_books_non2xx_success_cex :
    c2resp.status = 301 ∧
    search_books "harry" (.ok c2resp) =
      { total := JValue.num 7, items := [], query := "harry", error := none } :=
  ⟨rfl, rfl⟩

theorem search_books_failure_degrades_witness :
    (failureDescription (.raised "Connection refused") = some "Connection refused" ∧
     wellFormedMessages (.raised "Connection refused")) ∧
    (search_books "harry" (.raised "Connection refused") =
       degradedResult "harry" "Connection refused" ∧
     "Connection refused" ≠ "") :=
  ⟨⟨rfl, show ("Connection refused" : String) ≠ "" by decide⟩,
   search_books_failure_degrades "harry" "Connection refused"
     (.raised "Connection refused") rfl
     (show ("Connection refused" : String) ≠ "" by decide)⟩

/-- Claim C8: the declared parameter bounds (`startIndex ≥ 0`,
`1 ≤ maxResults ≤ 40`) are enforced at the boundary: `maxResults` 1 and
40 are accepted (the handler runs and issues exactly one outbound
request), while `maxResults` 0 or 41 and any negative `startIndex` are
rejected as an InvalidInput validation error with no outbound request
issued. -/
theorem search_endpoint_bounds (upstream : SearchRequest → UpstreamOutcome)
    (q : String) (si bad : Int) (mr : Int) (hsi : 0 ≤ si) (hbad : bad < 0) :
    search_endpoint upstream q si 1 =
      (.ok (search_books q (upstream ⟨q, si, 1⟩)), [⟨q, si, 1⟩]) ∧
    search_endpoint upstream q si 40 =
      (.ok (search_books q (upstream ⟨q, si, 40⟩)), [⟨q, si, 40⟩]) ∧
    search_endpoint upstream q si 0 = (.error "InvalidInput: maxResults", []) ∧
    search_endpoint upstream q si 41 = (.error "InvalidInput: maxResults", []) ∧
    search_endpoint upstream q bad mr = (.error "InvalidInput: startIndex", []) := by
  have h1 : validateSearchParams si 1 = none := by
    unfold validateSearchParams
    rw [if_neg (by omega), if_neg (by omega), if_neg (by omega)]
  have h40 : validateSearchParams si 40 = none := by
    unfold validateSearchParams
    rw [if_neg (by omega), if_neg (by omega), if_neg (by omega)]
  have h0 : validateSearchParams si 0 = some "maxResults" := by
    unfold validateSearchParams
    rw [if_neg (by omega), if_pos (by omega)]
  have h41 : validateSearchParams si 41 = some "maxResults" := by
    unfold validateSearchParams
    rw [if_neg (by omega), if_neg (by omega), if_pos (by omega)]
  have hb : validateSearchParams bad mr = some "startIndex" := by
    unfold validateSearchParams
    rw [if_pos (by omega)]
  refine ⟨?_, ?_, ?_, ?_, ?_⟩ <;> simp [search_endpoint, h1, h40, h0, h41, hb]

theorem search_endpoint_bounds_witness :
    ((0 : Int) ≤ 0 ∧ (-1 : Int) < 0) ∧
    (search_endpoint c8w_upstream "a" 0 1 =
       (.ok (search_books "a" (c8w_upstream ⟨"a", 0, 1⟩)), [⟨"a", 0, 1⟩]) ∧
     search_endpoint c8w_upstream "a" 0 40 =
       (.ok (search_books "a" (c8w_upstream ⟨"a", 0, 40⟩)), [⟨"a", 0, 40⟩]) ∧
     search_endpoint c8w_upstream "a" 0 0 = (.error "InvalidInput: maxResults", []) ∧
     search_endpoint c8w_upstream "a" 0 41 = (.error "InvalidInput: maxResults", []) ∧
     search_endpoint c8w_upstream "a" (-1) 20 = (.error "InvalidInput: startIndex", [])) :=
  ⟨⟨by decide, by decide⟩,
   search_endpoint_bounds c8w_upstream "a" 0 (-1) 20 (by decide) (by decide)⟩

/-! ## Claims about the recommendations aggregator -/

/-- Claim C1 (amended): whenever every curated upstream call either raises
an exception or completes with HTTP 200, `recommendations` returns exactly
6 sections, one per curated `(title, q)` pair in the fixed curated order
with matching `title`/`q` values, and a pair whose call raised is included
with empty `items`.  (A pair whose call completes with a non-200 status,
however, is omitted from the output — see the counterexample.) -/
theorem recommendations_all_sections (upstream : String → UpstreamOutcome)
    (hok : ∀ p ∈ suggestion_sets, ∀ resp, upstream p.2 = .ok resp → resp.status = 200) :
    (recommendations upstream).length = 6 ∧
    (recommendations upstream).map projTQ = suggestion_sets ∧
    (∀ sec ∈ recommendations upstream, ∀ m, upstream sec.q = .raised m →
      sec.items = []) := by
  have hnn : ∀ p ∈ suggestion_sets, sectionFor upstream p ≠ none := by
    intro p hp hcontra
    unfold sectionFor at hcontra
    rw [Option.map_eq_none'] at hcontra
    obtain ⟨resp, hresp, hst⟩ := (sectionItems_eq_none_iff _).mp hcontra
    exact hst (hok p hp resp hresp)
  have hmap := map_filterMap_eq_self (sectionFor upstream) projTQ
      (fun p sec h => sectionFor_proj h) suggestion_sets hnn
  refine ⟨?_, hmap, ?_⟩
  · have h2 : (recommendations upstream).length = suggestion_sets.length := by
      have h3 := congrArg List.length hmap
      rwa [List.length_map] at h3
    rw [h2]
    rfl
  · intro sec hsec m hm
    obtain ⟨p, hp, hfor⟩ := List.mem_filterMap.mp hsec
    obtain ⟨ht, hq, hsi⟩ := sectionFor_some_inv hfor
    rw [← hq, hm] at hsi
    exact (Option.some.inj hsi).symm

/-- Claim C1 counterexample: when the first curated topic completes with
HTTP 500 (no exception) and the other five complete with HTTP 200,
`recommendations` returns only 5 sections — the failed pair is dropped
from the output instead of being included with empty items, because the
loop only appends in the `status == 200` branch and in the `except`
branch. -/
theorem recommendations_drop_non200_cex :
    (recommendations c1upstream).length = 5 ∧
    (recommendations c1upstream).map projTQ = suggestion_sets.drop 1 :=
  ⟨rfl, rfl⟩

theorem recommendations_all_sections_witness :
    (∀ p ∈ suggestion_sets, ∀ resp, c1w_upstream p.2 = .ok resp → resp.status = 200) ∧
    ((recommendations c1w_upstream).length = 6 ∧
     (recommendations c1w_upstream).map projTQ = suggestion_sets ∧
     (∀ sec ∈ recommendations c1w_upstream, ∀ m,
       c1w_upstream sec.q = .raised m → sec.items = [])) :=
  ⟨fun _ _ _ hresp => UpstreamOutcome.noConfusion hresp,
   recommendations_all_sections c1w_upstream
     (fun _ _ _ hresp => UpstreamOutcome.noConfusion hresp)⟩

/-- Claim C10: the `(title, q)` projection of the sections returned by
`recommendations` is an order-preserving subsequence of the fixed curated
list — hence at most 6 sections, no duplicates, and no pair outside the
curated list — and a curated pair is omitted from the output exactly when
its upstream call completes without raising but with a status other than
200. -/
theorem recommendations_subsequence_of_curated (upstream : String → UpstreamOutcome) :
    ((recommendations upstream).map projTQ).Sublist suggestion_sets ∧
    (recommendations upstream).length ≤ 6 ∧
    ((recommendations upstream).map projTQ).Nodup ∧
    (∀ p ∈ suggestion_sets,
      (p ∉ (recommendations upstream).map projTQ ↔
        ∃ resp, upstream p.2 = .ok resp ∧ resp.status ≠ 200)) := by
  have hproj : ∀ (p : String × String) sec,
      sectionFor upstream p = some sec → projTQ sec = p :=
    fun p sec h => sectionFor_proj h
  have hsub := map_filterMap_sublist (sectionFor upstream) projTQ hproj suggestion_sets
  refine ⟨hsub, ?_, ?_, ?_⟩
  · have h1 := List.Sublist.length_le hsub
    rw [List.length_map] at h1
    exact h1
  · exact List.Nodup.sublist hsub (by decide)
  · intro p hp
    unfold recommendations
    rw [mem_map_filterMap_iff (sectionFor upstream) projTQ hproj]
    constructor
    · intro hnot
      have h0 : sectionFor upstream p = none :=
        not_not.mp (fun hne => hnot ⟨hp, hne⟩)
      unfold sectionFor at h0
      rw [Option.map_eq_none'] at h0
      exact (sectionItems_eq_none_iff _).mp h0
    · rintro ⟨resp, hresp, hst⟩ ⟨-, hne⟩
      apply hne
      unfold sectionFor
      rw [Option.map_eq_none']
      exact (sectionItems_eq_none_iff _).mpr ⟨resp, hresp, hst⟩

theorem recommendations_subsequence_of_curated_witness :
    (("For Kids", "subject:children") ∈ suggestion_sets) ∧
    ((("For Kids", "subject:children") ∉ (recommendations c10w_upstream).map projTQ) ↔
      ∃ resp, c10w_upstream "subject:children" = .ok resp ∧ resp.status ≠ 200) :=
  ⟨by decide,
   (recommendations_subsequence_of_curated c10w_upstream).2.2.2
     ("For Kids", "subject:children") (by decide)⟩

end BookSearch
